import Mathlib

/-!
Shallow embedding of the DCF networking module of the repository
(src/unnamed/part_000, together with the startup sequence in src/src/main.js).

The source file contains three overlapping drafts of the same module,
separated by document markers:
* draft 1 (lines 1-86): plain gRPC client map, fire-and-forget sends;
* draft 2 (lines 87-305): the enhanced draft with the global channel pool
  (`initChannelPool`, `getPooledChannel`, `MAX_POOL_SIZE`), the awaited
  per-peer send loop in `sendToPeers`, a typed inbound `SendMessage` handler,
  and `validateConfig`;
* draft 3 (lines 306-450): the error-handling draft whose `SendMessage`
  handler wraps its body in try/catch and answers with a gRPC INTERNAL
  failure on a caught exception.

Numbers are `Nat`/`Int`; a JS value that may be `undefined` is an `Option`;
a JS function that either returns or throws is an `Except`/`JSOutcome`.
Mutable module state (the global `channelPool` array and the `clients` map)
is threaded explicitly through a `NetState` record; a JS `Map` is an
association list in insertion order, as `Map.set`/iteration preserve
insertion order.
-/

/-- A JSON-style primitive value appearing in payload / envelope fields. -/
inductive JVal
  | str (s : String)
  | num (n : Int)
deriving DecidableEq, Repr

/-- A JS object, as an association list of fields in property order.
JS object literals have unique keys; objects built by spread keep the
first occurrence position of an updated key. -/
abbrev JObj := List (String × JVal)

/-- Property write with JS object-spread semantics: if the key is already
present its value is updated in place (position kept), otherwise the
property is appended at the end. -/
def jsSet (o : JObj) (k : String) (v : JVal) : JObj :=
  if o.any (fun p => p.1 == k) then
    o.map (fun p => if p.1 == k then (k, v) else p)
  else
    o ++ [(k, v)]

/-- Property read: value of the first field named `k`, or `none`
(JS `undefined`) when absent. -/
def jsGet (o : JObj) (k : String) : Option JVal :=
  (o.find? (fun p => p.1 == k)).map (fun p => p.2)

/-- The outbound envelope `JSON.stringify({ type, ...payload })` built by
every draft of `sendToPeers` (part_000 lines 48, 199, 383): an object whose
first property is `type` bound to the `type` argument, over which the
payload fields are spread in order, later writes overwriting earlier ones.
Note the source adds no timestamp field. -/
def mkEnvelope (type : String) (payload : JObj) : JObj :=
  payload.foldl (fun acc kv => jsSet acc kv.1 kv.2) [("type", JVal.str type)]

/-- An abstract gRPC channel handle. `initChannelPool` creates
`new grpc.Channel(address, ...)` in a loop; the handle is identified by the
address it was created for and its index within that creation loop
(`connectToPeer` guards the loop so it runs at most once per address). -/
abbrev Chan := String × Nat

/-- A slot of the JS `channelPool` array: a channel, or `undefined`
(which `Array.prototype.shift` yields on an empty array and which
`getPooledChannel` then pushes back, part_000 lines 140-141). -/
abbrev JSV := Option Chan

/-- A gRPC client stub. Draft 2 constructs it from the value returned by
`getPooledChannel()` (part_000 line 182), so we identify the stub with
that possibly-undefined channel. -/
abbrev Client := Option Chan

/-- Model of `Array.prototype.shift` on an array of possibly-undefined values:
removes and returns the first element, or returns `undefined` and leaves
the array empty when it has no element. -/
def arrayShift (a : List JSV) : JSV × List JSV :=
  match a with
  | [] => (none, [])
  | x :: xs => (x, xs)

/-- Model of `Array.prototype.push`: appends the value at the end. -/
def arrayPush (a : List JSV) (v : JSV) : List JSV :=
  a ++ [v]

/-- The constant `MAX_POOL_SIZE` (part_000 line 119). -/
def MAX_POOL_SIZE : Nat := 5

/-- Model of `initChannelPool(address)` (part_000 lines 126-132): pushes
`MAX_POOL_SIZE` freshly created channels for `address` onto the single
module-global `channelPool` array, without clearing or bounding it. -/
def initChannelPool (address : String) (pool : List JSV) : List JSV :=
  pool ++ (List.range MAX_POOL_SIZE).map (fun i => some (address, i))

/-- Model of `getPooledChannel()` (part_000 lines 139-143):
`const channel = channelPool.shift(); channelPool.push(channel); return channel;`
Returns the shifted front value and the rotated pool. -/
def getPooledChannel (pool : List JSV) : JSV × List JSV :=
  let s := arrayShift pool
  (s.1, arrayPush s.2 s.1)

/-- The module-global mutable state of draft 2: the shared `channelPool`
array and the `clients` map (association list in insertion order). -/
structure NetState where
  channelPool : List JSV
  clients : List (String × Client)
deriving DecidableEq, Repr

/-- Model of `connectToPeer(peerAddress)` of draft 2 (part_000 lines 179-187): when
the address is not yet in `clients`, initialize the channel pool for it,
build a client from `getPooledChannel()` and register it; otherwise leave
all state untouched. (The function returns `clients.get(peerAddress)`; the
claims concern the state, which is what the embedding threads. Draft 3,
lines 365-378, has the same `clients.has` guard without the pool.) -/
def connectToPeer (peerAddress : String) (s : NetState) : NetState :=
  if s.clients.any (fun p => p.1 == peerAddress) then s
  else
    let pool1 := initChannelPool peerAddress s.channelPool
    let g := getPooledChannel pool1
    { channelPool := g.2, clients := s.clients ++ [(peerAddress, g.1)] }

/-- The empty initial module state (`channelPool = []`, `clients` empty). -/
def initialNetState : NetState :=
  { channelPool := [], clients := [] }

/-- State after a whole sequence of `connectToPeer` calls from startup. -/
def connectSeq (addrs : List String) : NetState :=
  addrs.foldl (fun s a => connectToPeer a s) initialNetState

/-- Number of client entries registered under address `a`. -/
def countAddr (a : String) (cs : List (String × Client)) : Nat :=
  cs.countP (fun p => p.1 == a)

/-- Modelled after the words of the spec for comparison: the aggregate
per-destination result entry `address`/`success`/optional `error` that
section 4.4 of the spec says the dispatcher returns. No such structure
exists anywhere in the source; it is declared only so the statement
"sendToPeers returns a list of such entries" can be expressed and compared
with what the source actually returns. -/
structure SpecAggEntry where
  address : String
  success : Bool
  error : Option String
deriving DecidableEq, Repr

/-- Observable outcome of one `sendToPeers` call of draft 2. -/
structure SendOutcome where
  /-- The peers that received the serialized envelope (their send callback
  completed without error), with the envelope they received. -/
  received : List (String × JObj)
  /-- The addresses whose send failed; each failure is caught inside the
  loop and logged (part_000 lines 210-212), so iteration continues. -/
  errorLogs : List String
  /-- What the call returns to its caller. The source function body has no
  return statement, so the promise resolves with `undefined`: `none`. -/
  returned : Option (List SpecAggEntry)
deriving DecidableEq, Repr

/-- Result (returned value) or thrown exception of a JS call. -/
inductive JSOutcome (α : Type)
  | normal (v : α)
  | thrown (e : String)
deriving DecidableEq, Repr

/-- Model of `sendToPeers(payload, recipient = null, type = 'general')` of draft 2
(part_000 lines 198-215). `fails` is the transport environment: whether the
RPC to a given address reports an error to its callback. The loop visits
every entry of `clients` in order, skips entries not matching a non-null
`recipient`, awaits each matching send, and catches and logs each per-send
error without aborting the loop. The function reads but never writes
`clients` or `channelPool`, and has no reachable throw: an unknown
recipient merely matches no entry. -/
def sendToPeersRes (fails : String → Bool) (clients : List (String × Client))
    (payload : JObj) (recipient : Option String) (type : String) : SendOutcome :=
  let data := mkEnvelope type payload
  let matching := clients.filter (fun ac =>
    match recipient with
    | none => true
    | some r => ac.1 == r)
  { received := (matching.filter (fun ac => !fails ac.1)).map (fun ac => (ac.1, data)),
    errorLogs := (matching.filter (fun ac => fails ac.1)).map (fun ac => ac.1),
    returned := none }

/-- The call `sendToPeers` as seen by its caller: it always returns normally (every
per-peer rejection is caught inside the loop; no other statement throws). -/
def sendToPeers (fails : String → Bool) (clients : List (String × Client))
    (payload : JObj) (recipient : Option String) (type : String) : JSOutcome SendOutcome :=
  .normal (sendToPeersRes fails clients payload recipient type)

/-- The parsed inbound envelope used by the draft-2 `SendMessage` handler
(part_000 lines 148-164): `data.type`, and the fields the typed branches
inspect. -/
structure Envelope where
  type : String
  command : Option String
  content : Option String
  history : Option String
deriving DecidableEq, Repr

/-- The acknowledgement a gRPC handler passes to its `callback`. -/
inductive Ack
  | success (data : String)
  | failure (code : Nat) (details : String)
deriving DecidableEq, Repr

/-- What the transport layer observes from one handler invocation: an
acknowledgement (success or structured failure), or an exception that
escaped the handler uncaught. -/
inductive RouterOutcome
  | acked (a : Ack)
  | uncaught (err : String)
deriving DecidableEq, Repr

/-- Inbound request body, represented by the result of `JSON.parse` on
`msg.data`: `none` when the string does not parse (`JSON.parse` throws a
SyntaxError), `some e` when it parses to envelope `e`. -/
abbrev Inbound := Option Envelope

/-- The draft-2 `SendMessage` handler (part_000 lines 148-164). It has no
try/catch: a `JSON.parse` failure escapes uncaught. Its three typed
branches call `ipcRenderer.send`, `saveConversationSession` and
`captureManualScreenshot`; none of these identifiers is imported or defined
anywhere in draft 2 (lines 87-305 import only grpc, protoLoader, fs, path,
noble, mdns and winston), so each branch throws an uncaught ReferenceError
when reached. A type matching no case falls through the switch to
`callback(null, { data: 'Acknowledged' })`. -/
def sendMessageHandler (inbound : Inbound) : RouterOutcome :=
  match inbound with
  | none => .uncaught "SyntaxError in JSON.parse"
  | some d =>
    if d.type == "ai_response" then
      .uncaught "ReferenceError: ipcRenderer is not defined"
    else if d.type == "sync_history" then
      .uncaught "ReferenceError: saveConversationSession is not defined"
    else if d.type == "remote_control" then
      if d.command == some "screenshot" then
        .uncaught "ReferenceError: captureManualScreenshot is not defined"
      else .acked (.success "Acknowledged")
    else .acked (.success "Acknowledged")

/-- The try-block body of the draft-3 `SendMessage` handler (part_000
lines 342-346): it only reads `msg.data` as an opaque string, logs it, and
acknowledges; it never parses and never throws. -/
def handlerEHBody (_inbound : Inbound) : Except String Ack :=
  .ok (.success "Acknowledged")

/-- The draft-3 `SendMessage` handler (part_000 lines 341-353): its body
runs under try/catch, and a caught exception is converted into a
`callback({ code: grpc.status.INTERNAL, details })` structured failure
(INTERNAL = 13). The transport therefore always receives an
acknowledgement. -/
def sendMessageHandlerEH (inbound : Inbound) : RouterOutcome :=
  match handlerEHBody inbound with
  | .ok a => .acked a
  | .error e => .acked (.failure 13 e)

/-- The configuration object read from dcf-config.json, restricted to the
field `validateConfig` inspects: `port` is a JSON number or absent. -/
structure Config where
  port : Option Nat
deriving DecidableEq, Repr

/-- JS truthiness test `!config.port`: true when `port` is absent
(`undefined`) and also when it is the number 0. -/
def jsFalsyPort (p : Option Nat) : Bool :=
  match p with
  | none => true
  | some n => n == 0

/-- Model of `validateConfig()` (part_000 lines 279-282):
`if (!config.port) throw new Error('Invalid config: Missing port');`
modelled as `Except` with the thrown message. -/
def validateConfig (c : Config) : Except String Unit :=
  if jsFalsyPort c.port then .error "Invalid config: Missing port"
  else .ok ()

/-- Which startup side effects have run. -/
structure StartupState where
  windowCreated : Bool
  serverBound : Bool
  discoveryStarted : Bool
  monitorStarted : Bool
deriving DecidableEq, Repr

/-- The `app.whenReady` startup handler (src/src/main.js lines 8-15): it
runs `initializeRandomProcessNames()`, `createWindow()`, `validateConfig()`,
`startDCFServices()`, `discoverPeers()`, `monitorPerformance()` in order.
A synchronous throw from `validateConfig` aborts the sequence there, so
`startDCFServices` (which binds the gRPC server) and everything after it
never run. -/
def mainStartup (c : Config) : StartupState × Option String :=
  let afterWindow : StartupState :=
    { windowCreated := true, serverBound := false,
      discoveryStarted := false, monitorStarted := false }
  match validateConfig c with
  | .error e => (afterWindow, some e)
  | .ok _ =>
    ({ afterWindow with
        serverBound := true
        discoveryStarted := true
        monitorStarted := true }, none)

/-- Iterated `getPooledChannel`: performs `n` successive selections on the
pool, collecting the returned values in order together with the final pool
state. -/
def rotIter : Nat → List JSV → List JSV × List JSV
  | 0, pool => ([], pool)
  | n + 1, pool =>
    let g := getPooledChannel pool
    let r := rotIter n g.2
    (g.1 :: r.1, r.2)

/-- Number of selections returning exactly the value `x` in a selection
sequence. -/
def occurs (x : JSV) (l : List JSV) : Nat :=
  l.countP (fun y => y == x)

/-! ## Helper lemmas -/

/-- In a duplicate-free list every member occurs exactly once. -/
theorem occurs_eq_one_of_nodup : ∀ (p : List JSV), p.Nodup → ∀ x ∈ p, occurs x p = 1 := by
  intro p
  induction p with
  | nil => intro _ x hx; cases hx
  | cons a t ih =>
    intro hnd x hx
    rw [List.nodup_cons] at hnd
    rcases List.mem_cons.mp hx with h | h
    · subst h
      have hz : t.countP (fun y => y == x) = 0 := by
        rw [List.countP_eq_zero]
        intro y hy
        simp only [beq_iff_eq]
        intro he
        exact hnd.1 (he ▸ hy)
      simp [occurs, List.countP_cons, hz]
    · have h1 := ih hnd.2 x h
      have hne : (a == x) = false := by
        rw [beq_eq_false_iff_ne]
        intro he
        exact hnd.1 (he ▸ h)
      simp only [occurs, List.countP_cons, hne, if_false] at h1 ⊢
      simpa using h1

/-- Performing `n` pooled selections on a pool of at least `n` channels return exactly
the first `n` pool members in order and leave the pool rotated by `n`. -/
theorem rotIter_take_drop : ∀ (n : Nat) (p : List JSV), n ≤ p.length →
    rotIter n p = (p.take n, p.drop n ++ p.take n) := by
  intro n
  induction n with
  | zero => intro p _; simp [rotIter]
  | succ n ih =>
    intro p hp
    cases p with
    | nil => simp at hp
    | cons a t =>
      have hn : n ≤ t.length := Nat.le_of_succ_le_succ (by simpa using hp)
      have hn1 : n ≤ (t ++ [a]).length := by simp; omega
      have hrec := ih (t ++ [a]) hn1
      simp only [rotIter, getPooledChannel, arrayShift, arrayPush]
      rw [hrec]
      simp [List.take_append_of_le_length hn, List.drop_append_of_le_length hn,
        List.take_succ_cons, List.drop_succ_cons]

/-! ## Claim theorems -/

/-- C9: calling `getPooledChannel` on the empty pool returns `undefined`
(not a channel, not an error), appends `undefined` to the pool, and thereby
grows the pool from size 0 to size 1 with an invalid entry. -/
theorem c9_empty_pool_undefined :
    getPooledChannel ([] : List JSV) = (none, [none]) ∧
      ([] : List JSV).length = 0 ∧ [(none : JSV)].length = 1 :=
  ⟨rfl, rfl, rfl⟩

/-- C1 fails on the code: the channel pool is a single module-global array
and `connectToPeer` appends `MAX_POOL_SIZE` fresh channels for every first
connect to a distinct address, so after connecting to the two addresses
"a:5" and "b:6" the pool backing every peer's sends holds
`2 * MAX_POOL_SIZE = 10 > MAX_POOL_SIZE` connections. -/
theorem c1_pool_exceeds_max :
    (connectToPeer "b:6" (connectToPeer "a:5" initialNetState)).channelPool.length
        = 2 * MAX_POOL_SIZE ∧
      MAX_POOL_SIZE <
        (connectToPeer "b:6" (connectToPeer "a:5" initialNetState)).channelPool.length := by
  constructor <;> decide

/-- C3: connection selection is round-robin by shift-from-front then
push-to-back: on a pool of `n` distinct connections, `n` successive
selections return every pool member exactly once (in pool order) before
any member can be returned a second time, and leave the pool in its
original order, so the selection sequence is cyclic. -/
theorem c3_round_robin (p : List JSV) (hnd : p.Nodup) :
    (rotIter p.length p).1 = p ∧ (rotIter p.length p).2 = p ∧
      ∀ x ∈ p, occurs x (rotIter p.length p).1 = 1 := by
  have h := rotIter_take_drop p.length p (Nat.le_refl _)
  have h1 : (rotIter p.length p).1 = p := by rw [h]; simp
  have h2 : (rotIter p.length p).2 = p := by rw [h]; simp
  refine ⟨h1, h2, fun x hx => ?_⟩
  rw [h1]
  exact occurs_eq_one_of_nodup p hnd x hx

/-- Witness for C3 on a concrete three-channel pool. -/
theorem c3_round_robin_witness :
    ([some ("a", 0), some ("a", 1), some ("a", 2)] : List JSV).Nodup ∧
      (rotIter 3 [some ("a", 0), some ("a", 1), some ("a", 2)]).1
        = [some ("a", 0), some ("a", 1), some ("a", 2)] := by
  refine ⟨by decide, ?_⟩
  have h := c3_round_robin [some ("a", 0), some ("a", 1), some ("a", 2)] (by decide)
  simpa using h.1

/-- C2 fails on the code: with peers A and B registered and a broadcast
`sendToPeers({msg:"x"}, null, "general")`, both peers receive the envelope,
but the envelope is exactly `type`/`msg` with no `timestamp` property:
the source serializes `{ type, ...payload }` and never adds a timestamp. -/
theorem c2_counterexample :
    sendToPeersRes (fun _ => false) [("A", none), ("B", none)]
        [("msg", JVal.str "x")] none "general"
      = { received := [("A", [("type", JVal.str "general"), ("msg", JVal.str "x")]),
                       ("B", [("type", JVal.str "general"), ("msg", JVal.str "x")])],
          errorLogs := [], returned := none } ∧
      jsGet [("type", JVal.str "general"), ("msg", JVal.str "x")] "timestamp" = none := by
  constructor <;> decide

/-- C2 amended: `sendToPeers` wraps the payload in the envelope
`{type, ...payload}` (without any timestamp field) before transmission;
with two connected peers A and B, `sendToPeers({msg:"x"}, null, "general")`
results in both A and B receiving the envelope `{type:"general", msg:"x"}`,
which carries no `timestamp` property. -/
theorem c2_broadcast_envelope : ∀ (cA cB : Client),
    (sendToPeersRes (fun _ => false) [("A", cA), ("B", cB)]
        [("msg", JVal.str "x")] none "general").received
      = [("A", mkEnvelope "general" [("msg", JVal.str "x")]),
         ("B", mkEnvelope "general" [("msg", JVal.str "x")])] ∧
      jsGet (mkEnvelope "general" [("msg", JVal.str "x")]) "timestamp" = none := by
  intro cA cB
  exact ⟨rfl, rfl⟩

/-- When the address is already registered, `connectToPeer` is a no-op. -/
theorem connectToPeer_of_any (a : String) (s : NetState)
    (h : s.clients.any (fun p => p.1 == a) = true) : connectToPeer a s = s := by
  simp [connectToPeer, h]

/-- After `connectToPeer a`, the address `a` is registered. -/
theorem connect_self_any (a : String) (s : NetState) :
    (connectToPeer a s).clients.any (fun p => p.1 == a) = true := by
  cases hb : s.clients.any (fun p => p.1 == a) with
  | true => simp [connectToPeer, hb]
  | false => simp [connectToPeer, hb, List.any_append]

/-- Client-entry count for an address after any sequence of
`connectToPeer` calls from an arbitrary state: one entry is added for the
address exactly when it occurs in the sequence and was not yet
registered. -/
theorem connectFold_countAddr : ∀ (addrs : List String) (s : NetState) (x : String),
    countAddr x ((addrs.foldl (fun t a => connectToPeer a t) s)).clients
      = countAddr x s.clients
        + (if x ∈ addrs ∧ s.clients.any (fun p => p.1 == x) = false then 1 else 0) := by
  intro addrs
  induction addrs with
  | nil => intro s x; simp
  | cons b rest ih =>
    intro s x
    simp only [List.foldl_cons]
    rw [ih]
    cases hb : s.clients.any (fun p => p.1 == b) with
    | true =>
      rw [connectToPeer_of_any b s hb]
      by_cases hbx : x = b
      · subst hbx
        simp [hb]
      · refine congrArg (countAddr x s.clients + ·) (if_congr ?_ rfl rfl)
        simp [List.mem_cons, hbx]
    | false =>
      have hcl : (connectToPeer b s).clients
          = s.clients ++ [(b, (getPooledChannel (initChannelPool b s.channelPool)).1)] := by
        simp [connectToPeer, hb]
      rw [hcl]
      by_cases hbx : x = b
      · subst hbx
        simp [countAddr, List.countP_append, List.countP_cons, List.any_append, hb]
      · have hne : (b == x) = false := by
          rw [beq_eq_false_iff_ne]
          intro he
          exact hbx he.symm
        have hcnt : countAddr x (s.clients
            ++ [(b, (getPooledChannel (initChannelPool b s.channelPool)).1)]) = countAddr x s.clients := by
          simp [countAddr, List.countP_append, List.countP_cons, hne]
        rw [hcnt]
        refine congrArg (countAddr x s.clients + ·) (if_congr ?_ rfl rfl)
        simp [List.any_append, List.mem_cons, hbx, hne]

/-- C4: peer registration is idempotent. Registering the same address a
second time leaves the entire module state (client map and channel pool)
unchanged, so no duplicate Peer entry and no further connection attempt is
made; and any sequence of `connectToPeer` calls from the initial state
leaves exactly one client entry per address that occurs in the sequence,
no matter how often it is repeated. -/
theorem c4_idempotent_registration :
    (∀ (a : String) (s : NetState),
        connectToPeer a (connectToPeer a s) = connectToPeer a s) ∧
      ∀ (addrs : List String) (a : String),
        countAddr a (connectSeq addrs).clients = if a ∈ addrs then 1 else 0 := by
  constructor
  · intro a s
    exact connectToPeer_of_any a _ (connect_self_any a s)
  · intro addrs a
    have h := connectFold_countAddr addrs initialNetState a
    simpa [connectSeq, initialNetState, countAddr] using h

/-- C5 fails on the code: sending to a recipient address that was never
registered does not fail with any error - no `UnknownPeerError` exists in
the source - because the loop merely filters `clients` by the recipient
and an unknown recipient matches no entry. With one registered peer "A"
and unknown recipient "Z" the call returns normally, delivers to nobody,
logs nothing and (as always) returns `undefined`. -/
theorem c5_counterexample :
    sendToPeers (fun _ => false) [("A", none)] [("msg", JVal.str "x")] (some "Z") "general"
      = JSOutcome.normal { received := [], errorLogs := [], returned := none } := by
  rfl

/-- C5 amended: sending to a recipient address with no registered client
entry raises no error: the call returns normally with no delivery and no
error log, and (the embedding being read-only on `clients` and the pool,
exactly as the source function is) every other peer's state is left
unchanged. -/
theorem c5_unregistered_recipient (fails : String → Bool)
    (clients : List (String × Client)) (payload : JObj) (type r : String)
    (h : ∀ c ∈ clients, c.1 ≠ r) :
    sendToPeers fails clients payload (some r) type
      = JSOutcome.normal { received := [], errorLogs := [], returned := none } := by
  have hm : clients.filter (fun ac => ac.1 == r) = [] := by
    rw [List.filter_eq_nil_iff]
    intro a ha
    simpa using h a ha
  simp [sendToPeers, sendToPeersRes, hm]

/-- Witness for C5 amended at a concrete unregistered recipient. -/
theorem c5_unregistered_recipient_witness :
    (∀ c ∈ ([("A", (none : Client))] : List (String × Client)), c.1 ≠ "Z") ∧
      sendToPeers (fun _ => false) [("A", none)] [("msg", JVal.str "x")] (some "Z") "general"
        = JSOutcome.normal { received := [], errorLogs := [], returned := none } :=
  ⟨by decide,
    c5_unregistered_recipient (fun _ => false) [("A", none)] [("msg", JVal.str "x")]
      "general" "Z" (by decide)⟩

/-- C6 fails on the code: in a broadcast to the three connected peers
A, B, C where exactly the send to B fails, delivery does complete to A and
C and the failure is caught and logged, but the aggregate result the claim
requires does not exist: the function body has no return statement, so the
caller receives `undefined` - zero entries of `{address, success, error?}`,
not N = 3. -/
theorem c6_counterexample :
    (sendToPeersRes (fun a => a == "B") [("A", none), ("B", none), ("C", none)]
        [("msg", JVal.str "x")] none "general").returned = none ∧
      (sendToPeersRes (fun a => a == "B") [("A", none), ("B", none), ("C", none)]
          [("msg", JVal.str "x")] none "general").received
        = [("A", [("type", JVal.str "general"), ("msg", JVal.str "x")]),
           ("C", [("type", JVal.str "general"), ("msg", JVal.str "x")])] ∧
      (sendToPeersRes (fun a => a == "B") [("A", none), ("B", none), ("C", none)]
          [("msg", JVal.str "x")] none "general").errorLogs = ["B"] := by
  refine ⟨rfl, by decide, by decide⟩

/-- C6 amended: per-peer sends in a broadcast are independent - a failing
peer's error is caught inside the loop and logged, and every non-failing
registered peer still receives the envelope - but `sendToPeers` produces no
aggregate result list: it returns `undefined`. -/
theorem c6_fanout_isolated (fails : String → Bool) (clients : List (String × Client))
    (payload : JObj) (type : String) (a : String) (c : Client)
    (hmem : (a, c) ∈ clients) (hok : fails a = false) :
    (a, mkEnvelope type payload) ∈ (sendToPeersRes fails clients payload none type).received
      ∧ (sendToPeersRes fails clients payload none type).returned = none
      ∧ ∀ (b : String) (cb : Client), (b, cb) ∈ clients → fails b = true →
          b ∈ (sendToPeersRes fails clients payload none type).errorLogs := by
  refine ⟨?_, rfl, ?_⟩
  · simp only [sendToPeersRes, List.filter_true]
    refine List.mem_map.mpr ⟨(a, c), List.mem_filter.mpr ⟨?_, ?_⟩, rfl⟩
    · simpa using hmem
    · simp [hok]
  · intro b cb hb hfb
    simp only [sendToPeersRes, List.filter_true]
    refine List.mem_map.mpr ⟨(b, cb), List.mem_filter.mpr ⟨?_, ?_⟩, rfl⟩
    · simpa using hb
    · simp [hfb]

/-- Witness for C6 amended: with B failing among A, B, C, peer A still
receives the envelope. -/
theorem c6_fanout_isolated_witness :
    (("A", (none : Client)) ∈ ([("A", none), ("B", none), ("C", none)] :
        List (String × Client)) ∧ (fun a => a == "B") "A" = false) ∧
      ("A", mkEnvelope "general" [("msg", JVal.str "x")])
        ∈ (sendToPeersRes (fun a => a == "B") [("A", none), ("B", none), ("C", none)]
            [("msg", JVal.str "x")] none "general").received :=
  ⟨⟨by decide, by decide⟩,
    (c6_fanout_isolated (fun a => a == "B") [("A", none), ("B", none), ("C", none)]
      [("msg", JVal.str "x")] "general" "A" none (by decide) (by decide)).1⟩

/-- C7 fails on the code at one point: the check is JS truthiness
`!config.port`, so a configuration that does contain a port - namely
`{port: 0}` - also raises the missing-port error, contradicting the part
of the claim that startup for a config containing a port does not raise.
(The missing-port part of the claim itself holds; see the amended
theorem.) -/
theorem c7_counterexample :
    ({ port := some 0 } : Config).port = some 0 ∧
      validateConfig { port := some 0 } = Except.error "Invalid config: Missing port" :=
  ⟨rfl, rfl⟩

/-- C7 amended: a configuration without `port` makes `validateConfig`
throw the missing-port `Error` synchronously; in the startup sequence of
main.js this happens before `startDCFServices` runs, so the gRPC server is
never bound and no discovery or monitor task is started; and a
configuration with a nonzero port passes validation (a port of 0 is
treated as missing by the truthiness check). -/
theorem c7_missing_port (n : Nat) (hn : 0 < n) :
    validateConfig { port := none } = Except.error "Invalid config: Missing port" ∧
      mainStartup { port := none }
        = ({ windowCreated := true, serverBound := false, discoveryStarted := false,
             monitorStarted := false }, some "Invalid config: Missing port") ∧
      (mainStartup { port := none }).1.serverBound = false ∧
      validateConfig { port := some n } = Except.ok () := by
  refine ⟨rfl, rfl, rfl, ?_⟩
  simp [validateConfig, jsFalsyPort, hn.ne']

/-- Witness for C7 amended at port 5000. -/
theorem c7_missing_port_witness :
    0 < 5000 ∧ validateConfig { port := some 5000 } = Except.ok () :=
  ⟨by decide, (c7_missing_port 5000 (by decide)).2.2.2⟩

/-- C8 fails on the code: the draft-2 `SendMessage` handler has no
try/catch, so an inbound message whose `data` string does not parse as
JSON makes `JSON.parse` throw and the exception escapes the handler - the
transport layer receives an unhandled fault, not a success or
structured-failure acknowledgement. -/
theorem c8_counterexample :
    sendMessageHandler none = RouterOutcome.uncaught "SyntaxError in JSON.parse" :=
  rfl

/-- C8 amended: the error-handling draft's handler (part_000 lines
341-353) always hands the transport an acknowledgement and never an
uncaught fault, and the draft-2 handler acknowledges any envelope whose
type matches none of its switch cases successfully (unknown types fall
through to the acknowledge path); but only the error-handling draft
catches handler exceptions - the draft-2 handler propagates them (see the
counterexample). -/
theorem c8_router_behavior :
    (∀ i : Inbound, sendMessageHandlerEH i = RouterOutcome.acked (Ack.success "Acknowledged")) ∧
      ∀ d : Envelope,
        d.type ∉ (["ai_response", "sync_history", "remote_control"] : List String) →
        sendMessageHandler (some d) = RouterOutcome.acked (Ack.success "Acknowledged") := by
  constructor
  · intro i
    rfl
  · intro d hd
    simp only [List.mem_cons, List.not_mem_nil, or_false, not_or] at hd
    obtain ⟨h1, h2, h3⟩ := hd
    have b1 : (d.type == "ai_response") = false := by
      rw [beq_eq_false_iff_ne]; exact h1
    have b2 : (d.type == "sync_history") = false := by
      rw [beq_eq_false_iff_ne]; exact h2
    have b3 : (d.type == "remote_control") = false := by
      rw [beq_eq_false_iff_ne]; exact h3
    simp [sendMessageHandler, b1, b2, b3]

/-- Witness for C8 amended on an unrecognized message type. -/
theorem c8_router_behavior_witness :
    (({ type := "mystery", command := none, content := none, history := none } :
        Envelope).type ∉ (["ai_response", "sync_history", "remote_control"] : List String)) ∧
      sendMessageHandler
          (some { type := "mystery", command := none, content := none, history := none })
        = RouterOutcome.acked (Ack.success "Acknowledged") :=
  ⟨by decide,
    c8_router_behavior.2
      { type := "mystery", command := none, content := none, history := none } (by decide)⟩

/-- Updating an existing key rewrites every matching entry; the first
match is what `find?` then returns. -/
theorem find_map_update (o : JObj) (k : String) (v : JVal)
    (ha : o.any (fun p => p.1 == k) = true) :
    (o.map (fun p => if p.1 == k then (k, v) else p)).find? (fun p => p.1 == k)
      = some (k, v) := by
  induction o with
  | nil => simp at ha
  | cons hd tl ih =>
    cases hh : hd.1 == k with
    | true =>
      simp only [List.map_cons, hh, if_true]
      exact List.find?_cons_of_pos _ (by simp)
    | false =>
      have hta : tl.any (fun p => p.1 == k) = true := by
        simpa [List.any_cons, hh] using ha
      simp only [List.map_cons, hh, if_false]
      rw [List.find?_cons_of_neg _ (by simp [hh])]
      exact ih hta

/-- Updating key `k` does not change what `find?` sees for another key. -/
theorem find_map_update_ne (o : JObj) (k k2 : String) (v : JVal)
    (hk : (k == k2) = false) :
    (o.map (fun p => if p.1 == k then (k, v) else p)).find? (fun p => p.1 == k2)
      = o.find? (fun p => p.1 == k2) := by
  induction o with
  | nil => rfl
  | cons hd tl ih =>
    cases hh : hd.1 == k with
    | true =>
      have hd2 : (hd.1 == k2) = false := by
        have he : hd.1 = k := eq_of_beq hh
        rw [he]
        exact hk
      simp only [List.map_cons, hh, if_true]
      rw [List.find?_cons_of_neg _ (by simp [hk]), List.find?_cons_of_neg _ (by simp [hd2])]
      exact ih
    | false =>
      simp only [List.map_cons, hh, if_false]
      cases hd2 : hd.1 == k2 with
      | true =>
        rw [List.find?_cons_of_pos _ (by simp [hd2]), List.find?_cons_of_pos _ (by simp [hd2])]
        simp
      | false =>
        rw [List.find?_cons_of_neg _ (by simp [hd2]), List.find?_cons_of_neg _ (by simp [hd2])]
        exact ih

/-- Reading back a key just written yields the written value. -/
theorem jsGet_jsSet_self (o : JObj) (k : String) (v : JVal) :
    jsGet (jsSet o k v) k = some v := by
  unfold jsGet jsSet
  cases ha : o.any (fun p => p.1 == k) with
  | true =>
    simp only [ha, if_true]
    rw [find_map_update o k v ha]
    rfl
  | false =>
    simp only [ha, Bool.false_eq_true, if_false]
    rw [List.find?_append]
    have hnone : o.find? (fun p => p.1 == k) = none := by
      rw [List.find?_eq_none]
      intro p hp hpk
      have hcontra : o.any (fun p => p.1 == k) = true :=
        List.any_eq_true.mpr ⟨p, hp, hpk⟩
      rw [ha] at hcontra
      exact absurd hcontra (by simp)
    rw [hnone]
    simp

/-- Writing key `k` leaves reads of a different key `k2` unchanged. -/
theorem jsGet_jsSet_ne (o : JObj) (k k2 : String) (v : JVal)
    (hk : (k == k2) = false) :
    jsGet (jsSet o k v) k2 = jsGet o k2 := by
  unfold jsGet jsSet
  cases ha : o.any (fun p => p.1 == k) with
  | true =>
    simp only [ha, if_true]
    rw [find_map_update_ne o k k2 v hk]
  | false =>
    simp only [ha, Bool.false_eq_true, if_false]
    rw [List.find?_append]
    simp [hk]

/-- Reading a key that occurs nowhere yields `undefined`. -/
theorem jsGet_eq_none_of_not_mem (o : JObj) (k : String)
    (h : ∀ p ∈ o, (p.1 == k) = false) :
    jsGet o k = none := by
  unfold jsGet
  rw [List.find?_eq_none.mpr]
  · rfl
  · intro p hp hpk
    rw [h p hp] at hpk
    exact absurd hpk (by simp)

/-- Spreading a duplicate-key-free payload over an initial object reads
back the payload's value for a key when the payload has it, and the
initial object's value otherwise. -/
theorem jsGet_foldl_jsSet : ∀ (p : JObj) (init : JObj) (k : String),
    (p.map Prod.fst).Nodup →
    jsGet (p.foldl (fun acc kv => jsSet acc kv.1 kv.2) init) k
      = (match jsGet p k with
         | some v => some v
         | none => jsGet init k) := by
  intro p
  induction p with
  | nil => intro init k _; rfl
  | cons hd tl ih =>
    intro init k hnd
    rw [List.map_cons, List.nodup_cons] at hnd
    obtain ⟨hk1, hnd'⟩ := hnd
    simp only [List.foldl_cons]
    rw [ih (jsSet init hd.1 hd.2) k hnd']
    cases hh : hd.1 == k with
    | true =>
      have hke : hd.1 = k := eq_of_beq hh
      have htl : jsGet tl k = none := by
        apply jsGet_eq_none_of_not_mem
        intro q hq
        rw [beq_eq_false_iff_ne]
        intro hqe
        exact hk1 (by
          rw [hke]
          exact hqe ▸ List.mem_map.mpr ⟨q, hq, rfl⟩)
      have hcons : jsGet (hd :: tl) k = some hd.2 := by
        unfold jsGet
        rw [List.find?_cons_of_pos _ (by simp [hh])]
        rfl
      rw [htl, hcons]
      rw [← hke]
      exact jsGet_jsSet_self init hd.1 hd.2
    | false =>
      have hcons : jsGet (hd :: tl) k = jsGet tl k := by
        unfold jsGet
        rw [List.find?_cons_of_neg _ (by simp [hh])]
      rw [hcons, jsGet_jsSet_ne init hd.1 k hd.2 hh]

/-- C10 fails on the code in one corner: the claim says the transmitted
type equals the `type` argument only when the payload has no `type` key,
but when the payload's own `type` value coincides with the argument the
envelope's type equals the argument even though the payload does carry a
`type` key. -/
theorem c10_counterexample :
    jsGet (mkEnvelope "general" [("type", JVal.str "general"), ("msg", JVal.str "m")]) "type"
        = some (JVal.str "general") ∧
      jsGet [("type", JVal.str "general"), ("msg", JVal.str "m")] "type"
        = some (JVal.str "general") :=
  ⟨rfl, rfl⟩

/-- C10 amended: because the envelope is built as `{ type, ...payload }`,
a `type` key inside the payload overwrites the explicit `type` argument in
the transmitted envelope: the envelope's `type` is the payload's `type`
value whenever the payload has one (which coincides with the argument
exactly when the two values are equal), and is the `type` argument when
the payload has no `type` key. -/
theorem c10_type_overwrite (type : String) (payload : JObj)
    (h : (payload.map Prod.fst).Nodup) :
    jsGet (mkEnvelope type payload) "type"
      = some ((jsGet payload "type").getD (JVal.str type)) := by
  rw [mkEnvelope, jsGet_foldl_jsSet payload [("type", JVal.str type)] "type" h]
  cases jsGet payload "type" with
  | none => rfl
  | some v => rfl

/-- Witness for C10 amended: a payload carrying `type:"chat"` makes the
transmitted type "chat", not the argument "general". -/
theorem c10_type_overwrite_witness :
    (([("type", JVal.str "chat")] : JObj).map Prod.fst).Nodup ∧
      jsGet (mkEnvelope "general" [("type", JVal.str "chat")]) "type"
        = some ((jsGet [("type", JVal.str "chat")] "type").getD (JVal.str "general")) :=
  ⟨by decide, c10_type_overwrite "general" [("type", JVal.str "chat")] (by decide)⟩
